/-
Verification of the Tour State Aggregator of the tour-guide agent.

The embedding models, from `src/app/agent.py` and the places data model in
`src/app/test_places_api.py`:
  - the Place Record and Place Catalog (`Place`, `PlacesList` with `append`,
    `extend`, `get_by_display_name`, `get_by_display_names`);
  - the agent session state (`AgentState`: the `places_list`, `tour` and
    `places_list_tour` fields of the Python `AgentState` TypedDict; the
    `messages`, `is_last_step`, `remaining_steps` and `finalized_tour` fields
    carry no tour/catalog data and are omitted);
  - the four public tool operations `place_search`, `places_nearby`,
    `add_place_to_tour`, `remove_place_from_tour`.

External HTTP calls (Google Places text search and nearby search) are
modelled by a `Gateway` record of pure functions returning
`Except String (List Place)`: `Except.error msg` stands for a transport
failure (a raised `requests.exceptions.RequestException`, surfaced by the
Python code as a wrapping `Exception`), `Except.ok []` for a successful call
with no results.  Python exceptions raised by a tool are modelled by the
`Except ToolErr` result of the corresponding Lean function; a tool that
raises applies no state update (in the source, the `Command` carrying the
update is never returned), which `runTool` makes explicit.

Python floats (search radius, coordinates, ratings) are modelled as `Rat`;
no claim depends on float rounding.
-/
import Mathlib

namespace TourAgent

/-- `Location` model of `test_places_api.py` (latitude/longitude pair). -/
structure Location where
  latitude : Rat
  longitude : Rat
  deriving DecidableEq, Repr

/-- `DisplayName` model: localized text label of a place. -/
structure DisplayName where
  text : String
  languageCode : String
  deriving DecidableEq, Repr

/-- `LocalizedText` model. -/
structure LocalizedText where
  text : String
  languageCode : String
  deriving DecidableEq, Repr

/-- `Review` model (fields used by the data model; extra ignored). -/
structure Review where
  name : String
  text : Option LocalizedText
  originalText : Option LocalizedText
  rating : Rat
  deriving DecidableEq, Repr

/-- `Place` model: normalized representation of a point of interest.
Field names follow the API aliases used by the agent code
(`place.displayName.text` etc.). -/
structure Place where
  id : String
  types : List String
  internationalPhoneNumber : Option String := none
  formattedAddress : String
  location : Location
  rating : Option Rat := none
  websiteUri : Option String := none
  userRatingCount : Option Nat := none
  displayName : DisplayName
  reviews : Option (List Review) := none
  generativeSummary : Option String := none
  deriving DecidableEq, Repr

/-- `PlacesList` model: the Place Catalog, a wrapped list of `Place`. -/
structure PlacesList where
  places : List Place
  deriving DecidableEq, Repr

/-- `PlacesList.append`: `self.places.append(place)` — plain list append. -/
def PlacesList.append (l : PlacesList) (p : Place) : PlacesList :=
  ⟨l.places ++ [p]⟩

/-- `PlacesList.extend`: `self.places.extend(places.places)`. -/
def PlacesList.extend (l : PlacesList) (o : PlacesList) : PlacesList :=
  ⟨l.places ++ o.places⟩

/-- `PlacesList.get_by_display_name`: first place whose `displayName.text`
equals the argument; `none` models the raised `IndexError` on a miss. -/
def PlacesList.get_by_display_name (l : PlacesList) (display_name : String) :
    Option Place :=
  l.places.find? (fun p => p.displayName.text == display_name)

/-- `PlacesList.get_by_display_names`: looks up each name in order; the first
miss aborts the whole lookup with an `IndexError` naming that entry
(modelled by `Except.error` carrying the missing name). -/
def PlacesList.get_by_display_names (l : PlacesList) (display_names : List String) :
    Except String (List Place) :=
  match display_names with
  | [] => .ok []
  | n :: rest =>
    match l.get_by_display_name n with
    | none => .error n
    | some p =>
      match l.get_by_display_names rest with
      | .error m => .error m
      | .ok ps => .ok (p :: ps)

/-- The agent session state: the catalog/tour fields of the Python
`AgentState` TypedDict (`total=False`, so every field may be absent,
modelled by `Option`). -/
structure AgentState where
  places_list : Option PlacesList := none
  tour : Option (List String) := none
  places_list_tour : Option PlacesList := none
  deriving DecidableEq, Repr

/-- Errors a tool invocation can raise (the Python exception kinds). -/
inductive ToolErr where
  /-- Transport failure talking to the places service, surfaced by the tool
  (`LookupError` of the spec); carries the underlying message. -/
  | lookupError (msg : String)
  /-- `ValueError("No places found for …")` raised on an empty text-search
  result during resolve-or-fetch (`PlaceNotFoundError` of the spec). -/
  | placeNotFound (display_name : String)
  /-- `ValueError("The tour is still empty")` from `remove_place_from_tour`
  when the `tour` state field is absent (`EmptyTourError` of the spec). -/
  | emptyTour
  /-- `ValueError("Place … not found in the tour list. Actual values in the
  tour list: …")` (`PlaceNotInTourError` of the spec), naming the current
  tour contents. -/
  | notInTour (display_name : String) (tour : List String)
  /-- `IndexError` from `get_by_display_name`/`get_by_display_names`: a tour
  entry has no catalog backing; carries the missing display name. -/
  | catalogMiss (display_name : String)
  deriving DecidableEq, Repr

/-- The Lookup Gateway: the two outbound HTTP calls as pure functions.
`searchByText` models `PlacesList.search_places(query)`; `searchNearby`
models `place.get_nearby_locations(radius, location_types)`.  An
`Except.error` is a transport failure, `Except.ok` the decoded result list. -/
structure Gateway where
  searchByText : String → Except String (List Place)
  searchNearby : Place → Rat → List String → Except String (List Place)

/-- The resolve-or-fetch block shared verbatim by `places_nearby` and
`add_place_to_tour` (agent.py lines 435–451 and 498–515): look the display
name up in the catalog; on a miss run a text search, fail if it returns no
places, otherwise take the first result and append it to the catalog. -/
def resolveOrFetch (gw : Gateway) (display_name : String) (pl : PlacesList) :
    Except ToolErr (Place × PlacesList) :=
  match pl.get_by_display_name display_name with
  | some place => .ok (place, pl)
  | none =>
    match gw.searchByText display_name with
    | .error e => .error (.lookupError e)
    | .ok [] => .error (.placeNotFound display_name)
    | .ok (place :: _) => .ok (place, pl.append place)

/-- `place_search` tool (agent.py lines 368–401): runs a text search and
writes the fresh result list to the `places_list` state field (the
`Command` update overwrites the field; there is no merge with the
previous catalog). -/
def place_search (gw : Gateway) (query : String) (s : AgentState) :
    Except ToolErr AgentState :=
  match gw.searchByText query with
  | .error e => .error (.lookupError e)
  | .ok ps => .ok { s with places_list := some ⟨ps⟩ }

/-- `places_nearby` tool (agent.py lines 404–467): resolve the origin place
(fetching it on a catalog miss), run a nearby search around it, extend the
catalog with the nearby results.  The `Command` update carries only
`places_list`. -/
def places_nearby (gw : Gateway) (place_display_name : String)
    (location_types : List String) (radius : Rat) (s : AgentState) :
    Except ToolErr AgentState :=
  let pl := s.places_list.getD ⟨[]⟩
  match resolveOrFetch gw place_display_name pl with
  | .error e => .error e
  | .ok (place, pl1) =>
    match gw.searchNearby place radius location_types with
    | .error e => .error (.lookupError e)
    | .ok nearby => .ok { s with places_list := some (pl1.extend ⟨nearby⟩) }

/-- `add_place_to_tour` tool (agent.py lines 470–534): resolve the place
(fetching it on a catalog miss), append the resolved `displayName.text` to
the tour, and rebuild `places_list_tour` by looking every tour entry up in
the catalog (an `IndexError` there aborts the call). -/
def add_place_to_tour (gw : Gateway) (place_display_name : String)
    (s : AgentState) : Except ToolErr AgentState :=
  let tour := s.tour.getD []
  let pl := s.places_list.getD ⟨[]⟩
  match resolveOrFetch gw place_display_name pl with
  | .error e => .error e
  | .ok (place, pl1) =>
    let tour1 := tour ++ [place.displayName.text]
    match pl1.get_by_display_names tour1 with
    | .error missing => .error (.catalogMiss missing)
    | .ok placesTour =>
      .ok { s with
              tour := some tour1
              places_list := some pl1
              places_list_tour := some ⟨placesTour⟩ }

/-- `remove_place_from_tour` tool (agent.py lines 537–586): fails when the
`tour` state field is absent; removes the first occurrence of the display
name (`list.remove`), failing when it is not present; rebuilds
`places_list_tour` from the remaining tour entries (an `IndexError` there
aborts the call).  The `Command` update carries `tour` and
`places_list_tour`, not `places_list`. -/
def remove_place_from_tour (place_display_name : String) (s : AgentState) :
    Except ToolErr AgentState :=
  match s.tour with
  | none => .error .emptyTour
  | some tour =>
    if place_display_name ∈ tour then
      let tour1 := tour.erase place_display_name
      let pl := s.places_list.getD ⟨[]⟩
      match pl.get_by_display_names tour1 with
      | .error missing => .error (.catalogMiss missing)
      | .ok placesTour =>
        .ok { s with
                tour := some tour1
                places_list_tour := some ⟨placesTour⟩ }
    else .error (.notInTour place_display_name tour)

/-- Effect of one tool invocation on the session state: a raised error is
surfaced to the caller and the state update is not applied (the `Command`
is never returned). -/
def runTool (f : AgentState → Except ToolErr AgentState) (s : AgentState) :
    AgentState × Option ToolErr :=
  match f s with
  | .ok s' => (s', none)
  | .error e => (s, some e)

/-- The property the spec calls the Tour List/Catalog consistency invariant:
every display name in the Tour List resolves to a Catalog entry. -/
def tourResolved (s : AgentState) : Prop :=
  ∀ n ∈ s.tour.getD [], ((s.places_list.getD ⟨[]⟩).get_by_display_name n).isSome

/-! Concrete fixtures used by counterexamples and witnesses. -/

/-- A concrete place with display name `"A"`. -/
def placeA : Place :=
  { id := "pA", types := ["museum"], formattedAddress := "1 Forum Way",
    location := ⟨41, 12⟩, displayName := ⟨"A", "en"⟩ }

/-- A second record for the same display name `"A"` with different
metadata (different id and rating). -/
def placeA2 : Place :=
  { id := "pA2", types := ["monument"], formattedAddress := "2 Forum Way",
    location := ⟨41, 12⟩, rating := some 5, displayName := ⟨"A", "en"⟩ }

/-- A concrete place with display name `"B"`. -/
def placeB : Place :=
  { id := "pB", types := ["museum"], formattedAddress := "3 Hill Road",
    location := ⟨42, 13⟩, displayName := ⟨"B", "en"⟩ }

/-- A concrete place whose canonical display name `"Y"` differs from the
query string `"X"` that finds it. -/
def placeY : Place :=
  { id := "pY", types := ["museum"], formattedAddress := "4 Hill Road",
    location := ⟨43, 14⟩, displayName := ⟨"Y", "en"⟩ }

/-- A gateway whose text search finds `placeA` for `"A"`, `placeB` for
`"B"`, `placeY` for the query `"X"`, and nothing otherwise; nearby search
always returns `[placeB]`. -/
def gwAB : Gateway :=
  { searchByText := fun q =>
      if q = "A" then .ok [placeA]
      else if q = "B" then .ok [placeB]
      else if q = "X" then .ok [placeY]
      else .ok [],
    searchNearby := fun _ _ _ => .ok [placeB] }

/-- A gateway whose calls all fail with a transport timeout. -/
def gwDown : Gateway :=
  { searchByText := fun _ => .error "timeout",
    searchNearby := fun _ _ _ => .error "timeout" }

/-- The session state at session start: every field absent. -/
def s0 : AgentState := {}

/-- State after `add_place_to_tour gwAB "A" s0`. -/
def sA : AgentState :=
  { places_list := some ⟨[placeA]⟩, tour := some ["A"],
    places_list_tour := some ⟨[placeA]⟩ }

/-- State after a subsequent `place_search gwAB "B" sA`: the catalog is
replaced by the fresh result list. -/
def sAB : AgentState := { sA with places_list := some ⟨[placeB]⟩ }

/-- State after a second `add_place_to_tour gwAB "A" sA`. -/
def sAA : AgentState :=
  { places_list := some ⟨[placeA]⟩, tour := some ["A", "A"],
    places_list_tour := some ⟨[placeA, placeA]⟩ }

/-- A state whose catalog holds `placeA` and `placeB` and whose tour is
`["A", "B"]`. -/
def sTourAB : AgentState :=
  { places_list := some ⟨[placeA, placeB]⟩, tour := some ["A", "B"],
    places_list_tour := some ⟨[placeA, placeB]⟩ }

/-- `sTourAB` after `add_place_to_tour gwAB "A"`. -/
def sTourABA : AgentState :=
  { places_list := some ⟨[placeA, placeB]⟩, tour := some ["A", "B", "A"],
    places_list_tour := some ⟨[placeA, placeB, placeA]⟩ }

/-- `sTourABA` after `remove_place_from_tour "A"`: the first occurrence of
`"A"` is removed, so the tour ends `["B", "A"]`, not `["A", "B"]`. -/
def sTourBA : AgentState :=
  { places_list := some ⟨[placeA, placeB]⟩, tour := some ["B", "A"],
    places_list_tour := some ⟨[placeB, placeA]⟩ }

/-- State after `add_place_to_tour gwAB "X" s0`: the appended tour entry is
the canonical name `"Y"` of the first search result, not the argument
`"X"`. -/
def sXY : AgentState :=
  { places_list := some ⟨[placeY]⟩, tour := some ["Y"],
    places_list_tour := some ⟨[placeY]⟩ }

/-- A state whose catalog holds only `placeA` and whose tour is absent. -/
def sCatA : AgentState := { places_list := some ⟨[placeA]⟩ }

/-- `sCatA` after a `place_search gwAB "B"`: the catalog is now `[placeB]`;
`placeA` is gone. -/
def sCatB : AgentState := { places_list := some ⟨[placeB]⟩ }

/-- `sCatA` after `places_nearby gwAB "A"`: the catalog gained `placeB`. -/
def sCatApB : AgentState := { places_list := some ⟨[placeA, placeB]⟩ }

/-- `sCatA` after `add_place_to_tour gwAB "B"`. -/
def sCatAaddB : AgentState :=
  { places_list := some ⟨[placeA, placeB]⟩, tour := some ["B"],
    places_list_tour := some ⟨[placeB]⟩ }

/-- `sA` after `places_nearby gwAB "A"`: catalog extended with `placeB`,
tour untouched. -/
def sANB : AgentState := { sA with places_list := some ⟨[placeA, placeB]⟩ }

/-- `sTourAB` after `remove_place_from_tour "A"`. -/
def sTourB : AgentState :=
  { sTourAB with tour := some ["B"], places_list_tour := some ⟨[placeB]⟩ }

/-- `sA` after `remove_place_from_tour "A"`: the tour is back to empty. -/
def sARem : AgentState :=
  { sA with tour := some [], places_list_tour := some ⟨[]⟩ }

/-! Helper lemmas about the catalog operations. -/

lemma get_by_display_name_mk_append (ps more : List Place) (n : String) :
    (PlacesList.mk (ps ++ more)).get_by_display_name n =
      ((PlacesList.mk ps).get_by_display_name n).or
        ((PlacesList.mk more).get_by_display_name n) := by
  simp [PlacesList.get_by_display_name, List.find?_append]

lemma get_by_display_name_append_of_some {l : PlacesList} {p q : Place}
    {n : String} (h : l.get_by_display_name n = some q) :
    (l.append p).get_by_display_name n = some q := by
  have := get_by_display_name_mk_append l.places [p] n
  simpa [PlacesList.append, h] using this

lemma isSome_get_by_display_name_append {l : PlacesList} {p : Place}
    {n : String} (h : (l.get_by_display_name n).isSome) :
    ((l.append p).get_by_display_name n).isSome := by
  obtain ⟨q, hq⟩ := Option.isSome_iff_exists.mp h
  simp [get_by_display_name_append_of_some hq]

lemma get_by_display_name_extend_of_some {l o : PlacesList} {q : Place}
    {n : String} (h : l.get_by_display_name n = some q) :
    (l.extend o).get_by_display_name n = some q := by
  have := get_by_display_name_mk_append l.places o.places n
  simpa [PlacesList.extend, h] using this

lemma isSome_get_by_display_name_extend {l o : PlacesList} {n : String}
    (h : (l.get_by_display_name n).isSome) :
    ((l.extend o).get_by_display_name n).isSome := by
  obtain ⟨q, hq⟩ := Option.isSome_iff_exists.mp h
  simp [get_by_display_name_extend_of_some hq]

lemma get_by_display_names_resolves {l : PlacesList} {ns : List String}
    {ps : List Place} (h : l.get_by_display_names ns = .ok ps) :
    ∀ n ∈ ns, (l.get_by_display_name n).isSome := by
  induction ns generalizing ps with
  | nil => intro n hn; cases hn
  | cons m rest ih =>
    intro n hn
    unfold PlacesList.get_by_display_names at h
    cases hg : l.get_by_display_name m with
    | none => rw [hg] at h; cases h
    | some p =>
      rw [hg] at h
      cases hr : l.get_by_display_names rest with
      | error e => rw [hr] at h; cases h
      | ok qs =>
        cases hn with
        | head => simp [hg]
        | tail _ hmem => exact ih hr n hmem

lemma get_by_display_names_append_ok {l : PlacesList} {ns₁ ns₂ : List String}
    {ps : List Place} (h : l.get_by_display_names (ns₁ ++ ns₂) = .ok ps) :
    ∃ qs, l.get_by_display_names ns₁ = .ok qs := by
  induction ns₁ generalizing ps with
  | nil => exact ⟨[], rfl⟩
  | cons m rest ih =>
    rw [List.cons_append] at h
    unfold PlacesList.get_by_display_names at h
    cases hg : l.get_by_display_name m with
    | none => rw [hg] at h; cases h
    | some p =>
      rw [hg] at h
      cases hr : l.get_by_display_names (rest ++ ns₂) with
      | error e => rw [hr] at h; cases h
      | ok qs =>
        obtain ⟨qs₁, hqs₁⟩ := ih hr
        refine ⟨p :: qs₁, ?_⟩
        unfold PlacesList.get_by_display_names
        rw [hg, hqs₁]

lemma get_by_display_names_of_forall_isSome {l : PlacesList} {ns : List String}
    (h : ∀ n ∈ ns, (l.get_by_display_name n).isSome) :
    ∃ ps, l.get_by_display_names ns = .ok ps := by
  induction ns with
  | nil => exact ⟨[], rfl⟩
  | cons m rest ih =>
    obtain ⟨p, hp⟩ := Option.isSome_iff_exists.mp (h m (List.mem_cons_self m rest))
    obtain ⟨ps, hps⟩ := ih (fun n hn => h n (List.mem_cons_of_mem m hn))
    refine ⟨p :: ps, ?_⟩
    unfold PlacesList.get_by_display_names
    rw [hp, hps]

/-! Helper lemmas characterising the operations on their success paths. -/

lemma resolveOrFetch_catalog {gw : Gateway} {n : String} {pl pl1 : PlacesList}
    {p : Place} (h : resolveOrFetch gw n pl = .ok (p, pl1)) :
    pl1 = pl ∨ pl1 = pl.append p := by
  unfold resolveOrFetch at h
  cases hg : pl.get_by_display_name n with
  | some q => rw [hg] at h; cases h; exact Or.inl rfl
  | none =>
    rw [hg] at h
    cases hs : gw.searchByText n with
    | error e => rw [hs] at h; cases h
    | ok res =>
      rw [hs] at h
      cases res with
      | nil => cases h
      | cons q rest => cases h; exact Or.inr rfl

lemma resolveOrFetch_isSome_preserved {gw : Gateway} {n m : String}
    {pl pl1 : PlacesList} {p : Place}
    (h : resolveOrFetch gw n pl = .ok (p, pl1))
    (hm : (pl.get_by_display_name m).isSome) :
    (pl1.get_by_display_name m).isSome := by
  rcases resolveOrFetch_catalog h with rfl | rfl
  · exact hm
  · exact isSome_get_by_display_name_append hm

lemma resolveOrFetch_again {gw : Gateway} {n : String} {pl pl1 : PlacesList}
    {p : Place} (h : resolveOrFetch gw n pl = .ok (p, pl1)) :
    ∃ p2 pl2, resolveOrFetch gw n pl1 = .ok (p2, pl2) ∧
      p2.displayName.text = p.displayName.text := by
  unfold resolveOrFetch at h
  cases hg : pl.get_by_display_name n with
  | some q =>
    rw [hg] at h
    cases h
    exact ⟨p, pl, by unfold resolveOrFetch; rw [hg], rfl⟩
  | none =>
    rw [hg] at h
    cases hs : gw.searchByText n with
    | error e => rw [hs] at h; cases h
    | ok res =>
      rw [hs] at h
      cases res with
      | nil => cases h
      | cons q rest =>
        cases h
        have hpl1 := get_by_display_name_mk_append pl.places [p] n
        by_cases hpn : p.displayName.text = n
        · refine ⟨p, pl.append p, ?_, rfl⟩
          unfold resolveOrFetch
          have hsome : (pl.append p).get_by_display_name n = some p := by
            simp only [PlacesList.append]
            rw [hpl1]
            unfold PlacesList.get_by_display_name at hg ⊢
            rw [hg]
            simp [List.find?_cons, hpn]
          rw [hsome]
        · refine ⟨p, (pl.append p).append p, ?_, rfl⟩
          unfold resolveOrFetch
          have hnone : (pl.append p).get_by_display_name n = none := by
            simp only [PlacesList.append]
            rw [hpl1]
            unfold PlacesList.get_by_display_name at hg ⊢
            rw [hg]
            simp [List.find?_cons, hpn]
          rw [hnone, hs]

lemma add_place_to_tour_ok {gw : Gateway} {n : String} {s s' : AgentState}
    (h : add_place_to_tour gw n s = .ok s') :
    ∃ p pl1 pt,
      resolveOrFetch gw n (s.places_list.getD ⟨[]⟩) = .ok (p, pl1) ∧
      pl1.get_by_display_names (s.tour.getD [] ++ [p.displayName.text]) = .ok pt ∧
      s' = { s with
               tour := some (s.tour.getD [] ++ [p.displayName.text])
               places_list := some pl1
               places_list_tour := some ⟨pt⟩ } := by
  unfold add_place_to_tour at h
  simp only [] at h
  cases hr : resolveOrFetch gw n (s.places_list.getD ⟨[]⟩) with
  | error e => rw [hr] at h; cases h
  | ok pr =>
    obtain ⟨p, pl1⟩ := pr
    rw [hr] at h
    cases hn : pl1.get_by_display_names (s.tour.getD [] ++ [p.displayName.text]) with
    | error m => simp only [hn] at h; cases h
    | ok pt =>
      simp only [hn] at h
      cases h
      exact ⟨p, pl1, pt, rfl, hn, rfl⟩

lemma remove_place_from_tour_ok {n : String} {s s' : AgentState}
    (h : remove_place_from_tour n s = .ok s') :
    ∃ tour pt, s.tour = some tour ∧ n ∈ tour ∧
      (s.places_list.getD ⟨[]⟩).get_by_display_names (tour.erase n) = .ok pt ∧
      s' = { s with
               tour := some (tour.erase n)
               places_list_tour := some ⟨pt⟩ } := by
  unfold remove_place_from_tour at h
  simp only [] at h
  cases ht : s.tour with
  | none => rw [ht] at h; cases h
  | some tour =>
    rw [ht] at h
    simp only [] at h
    by_cases hmem : n ∈ tour
    · rw [if_pos hmem] at h
      cases hn : (s.places_list.getD ⟨[]⟩).get_by_display_names (tour.erase n) with
      | error m => simp only [hn] at h; cases h
      | ok pt =>
        simp only [hn] at h
        cases h
        exact ⟨tour, pt, rfl, hmem, hn, rfl⟩
    · rw [if_neg hmem] at h; cases h

lemma places_nearby_ok {gw : Gateway} {n : String} {tys : List String}
    {r : Rat} {s s' : AgentState}
    (h : places_nearby gw n tys r s = .ok s') :
    ∃ p pl1 ps,
      resolveOrFetch gw n (s.places_list.getD ⟨[]⟩) = .ok (p, pl1) ∧
      gw.searchNearby p r tys = .ok ps ∧
      s' = { s with places_list := some (pl1.extend ⟨ps⟩) } := by
  unfold places_nearby at h
  simp only [] at h
  cases hr : resolveOrFetch gw n (s.places_list.getD ⟨[]⟩) with
  | error e => rw [hr] at h; cases h
  | ok pr =>
    obtain ⟨p, pl1⟩ := pr
    rw [hr] at h
    cases hs : gw.searchNearby p r tys with
    | error e => simp only [hs] at h; cases h
    | ok ps =>
      simp only [hs] at h
      cases h
      exact ⟨p, pl1, ps, rfl, hs, rfl⟩

lemma remove_eq_error_emptyTour {n : String} {s : AgentState}
    (h : s.tour = none) :
    remove_place_from_tour n s = .error .emptyTour := by
  unfold remove_place_from_tour
  rw [h]

lemma remove_eq_error_notInTour {n : String} {s : AgentState} {ts : List String}
    (h : s.tour = some ts) (hmem : n ∉ ts) :
    remove_place_from_tour n s = .error (.notInTour n ts) := by
  unfold remove_place_from_tour
  rw [h]
  simp only []
  rw [if_neg hmem]

lemma remove_eq_ok {n : String} {s : AgentState} {ts : List String}
    {pt : List Place} (h : s.tour = some ts) (hmem : n ∈ ts)
    (hg : (s.places_list.getD ⟨[]⟩).get_by_display_names (ts.erase n) = .ok pt) :
    remove_place_from_tour n s =
      .ok { s with
              tour := some (ts.erase n)
              places_list_tour := some ⟨pt⟩ } := by
  unfold remove_place_from_tour
  rw [h]
  simp only []
  rw [if_pos hmem, hg]

/-! Claim theorems. -/

/-- C4 counterexample: appending two Place Records with the same
`display_name` ("A") but different metadata leaves TWO Catalog entries, not
one, and a lookup returns the FIRST record's metadata, not the latest:
`PlacesList.append` performs no upsert. -/
theorem C4_upsert_dedup_cex :
    placeA2.displayName.text = placeA.displayName.text ∧
    placeA2 ≠ placeA ∧
    ((PlacesList.mk []).append placeA).append placeA2 = ⟨[placeA, placeA2]⟩ ∧
    (((PlacesList.mk []).append placeA).append placeA2).places.length = 2 ∧
    (((PlacesList.mk []).append placeA).append placeA2).get_by_display_name
      "A" = some placeA ∧
    some placeA ≠ some placeA2 := by
  refine ⟨rfl, by decide, rfl, rfl, rfl, by decide⟩

/-- C4 (amended): adding two Place Records with the same `display_name`
into the Catalog keeps both entries (the Catalog is a plain list and
`append` does not dedupe), and `get_by_display_name` then returns the
first-appended record's metadata — first write wins, not last. -/
theorem C4_append_keeps_both_first_wins (l : PlacesList) (p1 p2 : Place)
    (hname : p2.displayName.text = p1.displayName.text)
    (hmiss : l.get_by_display_name p1.displayName.text = none) :
    ((l.append p1).append p2).places = l.places ++ [p1, p2] ∧
    ((l.append p1).append p2).get_by_display_name p1.displayName.text =
      some p1 := by
  constructor
  · simp [PlacesList.append]
  · have h1 : (l.append p1).get_by_display_name p1.displayName.text = some p1 := by
      have heq := get_by_display_name_mk_append l.places [p1] p1.displayName.text
      simp only [PlacesList.append]
      rw [heq]
      unfold PlacesList.get_by_display_name at hmiss ⊢
      rw [hmiss]
      simp [List.find?_cons]
    exact get_by_display_name_append_of_some h1

/-- C4 witness: the amended claim at the concrete records `placeA`,
`placeA2`. -/
theorem C4_append_keeps_both_first_wins_witness :
    (((PlacesList.mk []).append placeA).append placeA2).places =
      (PlacesList.mk []).places ++ [placeA, placeA2] ∧
    (((PlacesList.mk []).append placeA).append placeA2).get_by_display_name
      placeA.displayName.text = some placeA :=
  C4_append_keeps_both_first_wins ⟨[]⟩ placeA placeA2 rfl rfl

/-- C6 counterexample: on an existing but EMPTY Tour List the code raises
`PlaceNotInTourError` (naming the empty contents), not `EmptyTourError` as
the claim states. -/
theorem C6_empty_tour_raises_notInTour_cex :
    remove_place_from_tour "A" { tour := some [] } =
      .error (.notInTour "A" []) ∧
    ToolErr.notInTour "A" [] ≠ ToolErr.emptyTour :=
  ⟨rfl, by decide⟩

/-- C6 (amended): `remove_place_from_tour` fails with `EmptyTourError` only
when the `tour` state field is ABSENT; when the Tour List exists but does
not contain the name — including when it is empty — it fails with
`PlaceNotInTourError` naming the current contents; otherwise it removes the
first matching entry, preserving the order of the remaining entries
(provided the remaining entries still resolve in the Catalog, else the
lookup rebuilding `places_list_tour` aborts the call). -/
theorem C6_remove_place_semantics :
    (∀ n s, s.tour = none →
      remove_place_from_tour n s = .error .emptyTour) ∧
    (∀ n s ts, s.tour = some ts → n ∉ ts →
      remove_place_from_tour n s = .error (.notInTour n ts)) ∧
    (∀ n s ts pt, s.tour = some ts → n ∈ ts →
      (s.places_list.getD ⟨[]⟩).get_by_display_names (ts.erase n) = .ok pt →
      remove_place_from_tour n s =
        .ok { s with
                tour := some (ts.erase n)
                places_list_tour := some ⟨pt⟩ }) :=
  ⟨fun _ _ h => remove_eq_error_emptyTour h,
   fun _ _ _ h hmem => remove_eq_error_notInTour h hmem,
   fun _ _ _ _ h hmem hg => remove_eq_ok h hmem hg⟩

/-- C6 witness: the three remove behaviours at concrete states — absent
tour, name missing from `["A", "B"]`, and removing `"A"` from
`["A", "B"]`. -/
theorem C6_remove_place_semantics_witness :
    remove_place_from_tour "A" s0 = .error .emptyTour ∧
    remove_place_from_tour "C" sTourAB = .error (.notInTour "C" ["A", "B"]) ∧
    remove_place_from_tour "A" sTourAB = .ok sTourB :=
  ⟨C6_remove_place_semantics.1 "A" s0 rfl,
   C6_remove_place_semantics.2.1 "C" sTourAB ["A", "B"] rfl (by decide),
   C6_remove_place_semantics.2.2 "A" sTourAB ["A", "B"] [placeB] rfl
     (by decide) rfl⟩

/-- C7: the resolve-or-fetch step (shared by `add_place_to_tour` and
`places_nearby`): a Catalog hit returns that entry unchanged; on a miss a
text search is issued — an empty result fails with `PlaceNotFoundError`,
otherwise exactly the first result is taken, appended to the Catalog and
returned, whatever the rest of the result list is. -/
theorem C7_resolve_or_fetch_spec :
    (∀ gw n pl p, pl.get_by_display_name n = some p →
      resolveOrFetch gw n pl = .ok (p, pl)) ∧
    (∀ gw n pl, pl.get_by_display_name n = none →
      gw.searchByText n = .ok [] →
      resolveOrFetch gw n pl = .error (.placeNotFound n)) ∧
    (∀ gw n pl p rest, pl.get_by_display_name n = none →
      gw.searchByText n = .ok (p :: rest) →
      resolveOrFetch gw n pl = .ok (p, pl.append p)) := by
  refine ⟨?_, ?_, ?_⟩
  · intro gw n pl p h
    unfold resolveOrFetch
    rw [h]
  · intro gw n pl h hs
    unfold resolveOrFetch
    rw [h, hs]
  · intro gw n pl p rest h hs
    unfold resolveOrFetch
    rw [h, hs]

/-- C7 witness: the three resolve-or-fetch behaviours at concrete inputs —
a hit on `"A"`, a miss with empty search results on `"Z"`, and a miss on
`"X"` fetched as `placeY` (first of one result). -/
theorem C7_resolve_or_fetch_witness :
    resolveOrFetch gwAB "A" ⟨[placeA]⟩ = .ok (placeA, ⟨[placeA]⟩) ∧
    resolveOrFetch gwAB "Z" ⟨[]⟩ = .error (.placeNotFound "Z") ∧
    resolveOrFetch gwAB "X" ⟨[]⟩ = .ok (placeY, (⟨[]⟩ : PlacesList).append placeY) :=
  ⟨C7_resolve_or_fetch_spec.1 gwAB "A" ⟨[placeA]⟩ placeA rfl,
   C7_resolve_or_fetch_spec.2.1 gwAB "Z" ⟨[]⟩ rfl rfl,
   C7_resolve_or_fetch_spec.2.2 gwAB "X" ⟨[]⟩ placeY [] rfl rfl⟩

/-- C8: when the text search raises a transport failure during
`add_place_to_tour` (the requested name missing from the Catalog), the
call surfaces the lookup error and the session state — Catalog and Tour
List included — is exactly the state before the call: the failing
invocation applies no state update. -/
theorem C8_transport_failure_no_mutation (gw : Gateway) (n msg : String)
    (s : AgentState)
    (hmiss : (s.places_list.getD ⟨[]⟩).get_by_display_name n = none)
    (herr : gw.searchByText n = .error msg) :
    runTool (add_place_to_tour gw n) s = (s, some (.lookupError msg)) := by
  have hres : resolveOrFetch gw n (s.places_list.getD ⟨[]⟩) =
      .error (.lookupError msg) := by
    unfold resolveOrFetch
    rw [hmiss, herr]
  have hadd : add_place_to_tour gw n s = .error (.lookupError msg) := by
    unfold add_place_to_tour
    simp only []
    rw [hres]
  unfold runTool
  rw [hadd]

/-- C8 witness: adding `"Unknown Place"` through the always-timing-out
gateway from the empty session state leaves the state untouched and
surfaces the timeout. -/
theorem C8_transport_failure_no_mutation_witness :
    runTool (add_place_to_tour gwDown "Unknown Place") s0 =
      (s0, some (.lookupError "timeout")) :=
  C8_transport_failure_no_mutation gwDown "Unknown Place" "timeout" s0 rfl rfl

/-- C1 counterexample: a state reachable through the public operations in
which a Tour List entry has no Catalog backing: after adding `"A"` to the
tour, a `place_search` for `"B"` overwrites the Catalog with the fresh
results, leaving the tour entry `"A"` dangling.  The claimed invariant does
not hold for all reachable states. -/
theorem C1_invariant_cex :
    add_place_to_tour gwAB "A" s0 = .ok sA ∧
    place_search gwAB "B" sA = .ok sAB ∧
    "A" ∈ sAB.tour.getD [] ∧
    (sAB.places_list.getD ⟨[]⟩).get_by_display_name "A" = none :=
  ⟨rfl, rfl, by decide, rfl⟩

/-- C1 (amended): every successful `add_place_to_tour` and
`remove_place_from_tour` leaves a state in which every Tour List entry
resolves in the Catalog, and `places_nearby` preserves that property; but
`place_search` overwrites the Catalog with the fresh search results and can
break it, so the invariant does not hold for all states reachable through
all four public operations. -/
theorem C1_tour_resolves_except_place_search :
    (∀ gw n s s', add_place_to_tour gw n s = .ok s' → tourResolved s') ∧
    (∀ n s s', remove_place_from_tour n s = .ok s' → tourResolved s') ∧
    (∀ gw n tys r s s', tourResolved s →
      places_nearby gw n tys r s = .ok s' → tourResolved s') := by
  refine ⟨?_, ?_, ?_⟩
  · intro gw n s s' h
    obtain ⟨p, pl1, pt, hr, hg, rfl⟩ := add_place_to_tour_ok h
    intro m hm
    exact get_by_display_names_resolves hg m hm
  · intro n s s' h
    obtain ⟨tour, pt, ht, hmem, hg, rfl⟩ := remove_place_from_tour_ok h
    intro m hm
    exact get_by_display_names_resolves hg m hm
  · intro gw n tys r s s' hinv h
    obtain ⟨p, pl1, ps, hr, hs, rfl⟩ := places_nearby_ok h
    intro m hm
    have h0 : ((s.places_list.getD ⟨[]⟩).get_by_display_name m).isSome :=
      hinv m hm
    exact isSome_get_by_display_name_extend (resolveOrFetch_isSome_preserved hr h0)

/-- C1 witness: the preserved property at concrete states — after the add
that produced `sA`, after the remove that produced `sTourB`, and after the
nearby search that produced `sANB`. -/
theorem C1_tour_resolves_witness :
    tourResolved sA ∧ tourResolved sTourB ∧ tourResolved sANB :=
  ⟨C1_tour_resolves_except_place_search.1 gwAB "A" s0 sA rfl,
   C1_tour_resolves_except_place_search.2.1 "A" sTourAB sTourB rfl,
   C1_tour_resolves_except_place_search.2.2 gwAB "A" ["museum"] 1000 sA sANB
     (by unfold tourResolved; decide) rfl⟩

/-- C2 counterexample: the Catalog does not grow monotonically across every
public operation — a `place_search` replaces it wholesale: starting from a
Catalog holding `placeA`, searching `"B"` leaves a Catalog in which
`placeA` no longer appears. -/
theorem C2_catalog_monotone_cex :
    place_search gwAB "B" sCatA = .ok sCatB ∧
    placeA ∈ (sCatA.places_list.getD ⟨[]⟩).places ∧
    placeA ∉ (sCatB.places_list.getD ⟨[]⟩).places :=
  ⟨rfl, by decide, by decide⟩

/-- C2 (amended): the Catalog grows monotonically across
`add_place_to_tour`, `places_nearby` (both only append) and
`remove_place_from_tour` (which leaves it untouched); `place_search`,
however, replaces the whole Catalog with the fresh search results, so
entries previously in the Catalog can be dropped by it. -/
theorem C2_catalog_monotone_except_place_search :
    (∀ gw n s s', add_place_to_tour gw n s = .ok s' →
      ∀ p ∈ (s.places_list.getD ⟨[]⟩).places,
        p ∈ (s'.places_list.getD ⟨[]⟩).places) ∧
    (∀ gw n tys r s s', places_nearby gw n tys r s = .ok s' →
      ∀ p ∈ (s.places_list.getD ⟨[]⟩).places,
        p ∈ (s'.places_list.getD ⟨[]⟩).places) ∧
    (∀ n s s', remove_place_from_tour n s = .ok s' →
      s'.places_list = s.places_list) ∧
    (∀ gw q s s' ps, gw.searchByText q = .ok ps →
      place_search gw q s = .ok s' → s'.places_list = some ⟨ps⟩) := by
  refine ⟨?_, ?_, ?_, ?_⟩
  · intro gw n s s' h p hp
    obtain ⟨q, pl1, pt, hr, hg, rfl⟩ := add_place_to_tour_ok h
    rcases resolveOrFetch_catalog hr with rfl | rfl
    · exact hp
    · exact List.mem_append_left _ hp
  · intro gw n tys r s s' h p hp
    obtain ⟨q, pl1, ps, hr, hs, rfl⟩ := places_nearby_ok h
    have hp1 : p ∈ pl1.places := by
      rcases resolveOrFetch_catalog hr with rfl | rfl
      · exact hp
      · exact List.mem_append_left _ hp
    exact List.mem_append_left _ hp1
  · intro n s s' h
    obtain ⟨tour, pt, ht, hmem, hg, rfl⟩ := remove_place_from_tour_ok h
    rfl
  · intro gw q s s' ps hs h
    unfold place_search at h
    rw [hs] at h
    cases h
    rfl

/-- C2 witness: monotonicity at concrete states — `placeA` survives the add
that produced `sCatAaddB` and the nearby search that produced `sCatApB`;
the remove that produced `sTourB` left the Catalog untouched; and the
search that produced `sCatB` set the Catalog to exactly the fresh
results. -/
theorem C2_catalog_monotone_witness :
    placeA ∈ (sCatAaddB.places_list.getD ⟨[]⟩).places ∧
    placeA ∈ (sCatApB.places_list.getD ⟨[]⟩).places ∧
    sTourB.places_list = sTourAB.places_list ∧
    sCatB.places_list = some ⟨[placeB]⟩ :=
  ⟨C2_catalog_monotone_except_place_search.1 gwAB "B" sCatA sCatAaddB rfl
     placeA (by decide),
   C2_catalog_monotone_except_place_search.2.1 gwAB "A" ["museum"] 1000 sCatA
     sCatApB rfl placeA (by decide),
   C2_catalog_monotone_except_place_search.2.2.1 "A" sTourAB sTourB rfl,
   C2_catalog_monotone_except_place_search.2.2.2 gwAB "B" sCatA sCatB [placeB]
     rfl rfl⟩

/-- C9: a successful `places_nearby` never modifies the Tour List (neither
the `tour` field nor `places_list_tour` is in its update) while the Catalog
becomes the pre-call Catalog — possibly extended by the lazily fetched
origin place — with all returned nearby records appended. -/
theorem C9_places_nearby_frame (gw : Gateway) (n : String) (tys : List String)
    (r : Rat) (s s' : AgentState)
    (h : places_nearby gw n tys r s = .ok s') :
    s'.tour = s.tour ∧ s'.places_list_tour = s.places_list_tour ∧
    ∃ p pl1 ps, gw.searchNearby p r tys = .ok ps ∧
      (pl1 = s.places_list.getD ⟨[]⟩ ∨
        pl1 = (s.places_list.getD ⟨[]⟩).append p) ∧
      s'.places_list = some ⟨pl1.places ++ ps⟩ := by
  obtain ⟨p, pl1, ps, hr, hs, rfl⟩ := places_nearby_ok h
  exact ⟨rfl, rfl, p, pl1, ps, hs, resolveOrFetch_catalog hr, rfl⟩

/-- C9 witness: the frame property at the concrete nearby search that
produced `sANB` from `sA`: tour untouched, Catalog grown by `placeB`. -/
theorem C9_places_nearby_frame_witness :
    sANB.tour = sA.tour ∧ sANB.places_list_tour = sA.places_list_tour ∧
    ∃ p pl1 ps, gwAB.searchNearby p 1000 ["museum"] = .ok ps ∧
      (pl1 = sA.places_list.getD ⟨[]⟩ ∨
        pl1 = (sA.places_list.getD ⟨[]⟩).append p) ∧
      sANB.places_list = some ⟨pl1.places ++ ps⟩ :=
  C9_places_nearby_frame gwAB "A" ["museum"] 1000 sA sANB rfl

/-- C3 counterexample: `add_place_to_tour` is not idempotent — adding
`"A"` twice in succession from the empty state yields the tour
`["A", "A"]`, not `["A"]`: the code appends without a membership test. -/
theorem C3_add_idempotent_cex :
    add_place_to_tour gwAB "A" s0 = .ok sA ∧
    add_place_to_tour gwAB "A" sA = .ok sAA ∧
    sAA.tour ≠ sA.tour :=
  ⟨rfl, rfl, by decide⟩

/-- C3 (amended): calling `add_place_to_tour(name)` twice in succession
appends the resolved display name twice: the second call yields the Tour
List of the first call with one more copy of the same resolved name at the
end (no dedupe is performed). -/
theorem C3_add_place_appends_duplicate (gw : Gateway) (n : String)
    (s s1 s2 : AgentState)
    (h1 : add_place_to_tour gw n s = .ok s1)
    (h2 : add_place_to_tour gw n s1 = .ok s2) :
    ∃ t, s1.tour = some (s.tour.getD [] ++ [t]) ∧
      s2.tour = some (s.tour.getD [] ++ [t] ++ [t]) := by
  obtain ⟨p, pl1, pt, hr, hg, rfl⟩ := add_place_to_tour_ok h1
  obtain ⟨p2, pl2, pt2, hr2, hg2, rfl⟩ := add_place_to_tour_ok h2
  refine ⟨p.displayName.text, rfl, ?_⟩
  obtain ⟨p3, pl3, hr3, htext⟩ := resolveOrFetch_again hr
  have hr2' : resolveOrFetch gw n pl1 = .ok (p2, pl2) := hr2
  rw [hr3] at hr2'
  injection hr2' with hpair
  injection hpair with hp hpl
  subst hp
  show some ((s.tour.getD [] ++ [p.displayName.text]) ++ [p3.displayName.text]) = _
  rw [htext]

/-- C3 witness: the amended claim at the concrete double add of `"A"`
from the empty state. -/
theorem C3_add_place_appends_duplicate_witness :
    sA.tour = some (s0.tour.getD [] ++ ["A"]) ∧
    sAA.tour = some (s0.tour.getD [] ++ ["A"] ++ ["A"]) := by
  obtain ⟨t, h1, h2⟩ := C3_add_place_appends_duplicate gwAB "A" s0 sA sAA rfl rfl
  have ht : t = "A" := by
    have h1' : (some ["A"] : Option (List String)) = some ([] ++ [t]) := h1
    simp at h1'
    exact h1'.symm
  subst ht
  exact ⟨h1, h2⟩

/-- C5 (amended): `add_place(name)` followed by `remove_place(name)`
restores the Tour List exactly to its pre-add state whenever the name
resolved to itself (the appended entry is `name`) and `name` was NOT
already present in the Tour List before the add; with a prior occurrence
the round trip reorders the list instead (see the counterexample). -/
theorem C5_round_trip_fresh (gw : Gateway) (n : String) (s s1 : AgentState)
    (hadd : add_place_to_tour gw n s = .ok s1)
    (happ : s1.tour = some (s.tour.getD [] ++ [n]))
    (hfresh : n ∉ s.tour.getD []) :
    ∃ s2, remove_place_from_tour n s1 = .ok s2 ∧
      s2.tour = some (s.tour.getD []) := by
  obtain ⟨p, pl1, pt, hr, hg, rfl⟩ := add_place_to_tour_ok hadd
  have htext : p.displayName.text = n := by
    have h' : some (s.tour.getD [] ++ [p.displayName.text]) =
        some (s.tour.getD [] ++ [n]) := happ
    injection h' with h''
    have h3 := List.append_cancel_left h''
    simpa using h3
  subst htext
  have herase : (s.tour.getD [] ++ [p.displayName.text]).erase p.displayName.text
      = s.tour.getD [] := by
    rw [List.erase_append_right _ hfresh, List.erase_cons_head]
    simp
  obtain ⟨qs, hqs⟩ := get_by_display_names_append_ok hg
  have hmem : p.displayName.text ∈ s.tour.getD [] ++ [p.displayName.text] := by
    simp
  have hg' : (({ s with
      tour := some (s.tour.getD [] ++ [p.displayName.text])
      places_list := some pl1
      places_list_tour := some ⟨pt⟩ } : AgentState).places_list.getD
        ⟨[]⟩).get_by_display_names
      ((s.tour.getD [] ++ [p.displayName.text]).erase p.displayName.text) =
        .ok qs := by
    show pl1.get_by_display_names
      ((s.tour.getD [] ++ [p.displayName.text]).erase p.displayName.text) = .ok qs
    rw [herase]
    exact hqs
  refine ⟨_, remove_eq_ok rfl hmem hg', ?_⟩
  show some ((s.tour.getD [] ++ [p.displayName.text]).erase p.displayName.text) =
    some (s.tour.getD [])
  rw [herase]

/-- C5 counterexample: with `"A"` already present, add-then-remove does
not restore the pre-add Tour List: from tour `["A", "B"]`, adding `"A"`
gives `["A", "B", "A"]` and removing `"A"` deletes the FIRST occurrence,
leaving `["B", "A"]` ≠ `["A", "B"]`. -/
theorem C5_round_trip_cex :
    add_place_to_tour gwAB "A" sTourAB = .ok sTourABA ∧
    remove_place_from_tour "A" sTourABA = .ok sTourBA ∧
    sTourBA.tour ≠ sTourAB.tour :=
  ⟨rfl, rfl, by decide⟩

/-- C5 witness: the amended round trip at the concrete state `sA`
(tour `["A"]`, `"A"` fresh with respect to the pre-add empty tour). -/
theorem C5_round_trip_fresh_witness :
    remove_place_from_tour "A" sA = .ok sARem ∧
    sARem.tour = some (s0.tour.getD []) := by
  obtain ⟨s2, h1, h2⟩ := C5_round_trip_fresh gwAB "A" s0 sA rfl rfl (by decide)
  have heq : Except.ok (ε := ToolErr) s2 = .ok sARem := h1.symm.trans rfl
  injection heq with heq'
  subst heq'
  exact ⟨h1, h2⟩

/-- C10: when `add_place_to_tour` misses in the Catalog and the fallback
text search returns a non-empty list, the name appended to the Tour List
is the canonical `displayName.text` of the FIRST fetched result, not the
`place_display_name` argument; concretely, adding `"X"` appends `"Y"`, and
`"X"` is absent from the Tour List even though the call succeeded. -/
theorem C10_add_appends_canonical_name :
    (∀ gw n s s' p rest,
      (s.places_list.getD ⟨[]⟩).get_by_display_name n = none →
      gw.searchByText n = .ok (p :: rest) →
      add_place_to_tour gw n s = .ok s' →
      s'.tour = some (s.tour.getD [] ++ [p.displayName.text])) ∧
    (add_place_to_tour gwAB "X" s0 = .ok sXY ∧
      sXY.tour = some [placeY.displayName.text] ∧
      placeY.displayName.text ≠ "X" ∧
      "X" ∉ sXY.tour.getD []) := by
  constructor
  · intro gw n s s' p rest hmiss hsearch hok
    obtain ⟨q, pl1, pt, hr, hg, rfl⟩ := add_place_to_tour_ok hok
    have hres : resolveOrFetch gw n (s.places_list.getD ⟨[]⟩) =
        .ok (p, (s.places_list.getD ⟨[]⟩).append p) := by
      unfold resolveOrFetch
      rw [hmiss, hsearch]
    rw [hres] at hr
    injection hr with hpair
    injection hpair with hq hpl
    subst hq
    rfl
  · exact ⟨rfl, rfl, by decide, by decide⟩

/-- C10 witness: the universal part at the concrete add of `"A"` from the
empty state (fetched record `placeA`, canonical name `"A"`). -/
theorem C10_add_appends_canonical_name_witness :
    sA.tour = some (s0.tour.getD [] ++ [placeA.displayName.text]) :=
  C10_add_appends_canonical_name.1 gwAB "A" s0 sA placeA [] rfl rfl rfl

end TourAgent
